import Mathlib

/-!
Verification of the pipecheetah repository: the server-side raw PCM frame
codec (RawPCMSerializer in src/bot.py), the WAV dump helper (save_audio
in src/bot.py), and the client audio duplex streamer
(src/client/python/test_client.py), shallowly embedded in Lean.
-/

namespace PipeCheetah

mutual

/-- A JSON value, as produced by Python json.loads. Python dicts are
modelled as field lists with lookup taking the first match, which
coincides with dict lookup on well-formed objects (distinct keys). -/
inductive Json where
  | null
  | bool (b : Bool)
  | num (n : Int)
  | str (s : String)
  | arr (xs : JsonList)
  | obj (fields : JsonFields)
  deriving DecidableEq, Repr

/-- Elements of a JSON array. -/
inductive JsonList where
  | nil
  | cons (hd : Json) (tl : JsonList)
  deriving DecidableEq, Repr

/-- Key and value fields of a JSON object. -/
inductive JsonFields where
  | nil
  | cons (key : String) (val : Json) (tl : JsonFields)
  deriving DecidableEq, Repr

end

/-- Python dict.get with no default: first binding of the key, if any. -/
def dictGet : JsonFields → String → Option Json
  | .nil, _ => none
  | .cons k v rest, key => if k = key then some v else dictGet rest key

/-- Python dict.get with a default value, obj.get(key, default). -/
def dictGetD (fields : JsonFields) (key : String) (dflt : Json) : Json :=
  (dictGet fields key).getD dflt

/-- Python truthiness of a JSON value, used by the idiom x or y. -/
def jsonTruthy : Json → Bool
  | .null => false
  | .bool b => b
  | .num n => decide (n ≠ 0)
  | .str s => decide (s ≠ "")
  | .arr xs => decide (xs ≠ .nil)
  | .obj fs => decide (fs ≠ .nil)

/-- Mutable state of RawPCMSerializer: the fields holding the negotiated
sample rate and channel count. Python never type-checks what obj.get
returns, so both fields hold arbitrary JSON values; the constructor
defaults are the integers 16000 and 1. -/
structure SerializerState where
  sampleRate : Json
  channels : Json
  deriving DecidableEq, Repr

/-- The constructor defaults of RawPCMSerializer (16000 Hz, 1 channel). -/
def initState : SerializerState := ⟨.num 16000, .num 1⟩

/-- Pipecat frames produced or consumed by the serializer, restricted to
the constructors the source code touches: InputAudioRawFrame,
OutputAudioRawFrame (both instances of AudioRawFrame), StartFrame, and a
catch-all for every other frame kind. Byte strings are lists of bytes. -/
inductive PFrame where
  | inputAudio (audio : List Nat) (sampleRate : Json) (numChannels : Json)
  | outputAudio (audio : List Nat) (sampleRate : Json) (numChannels : Json)
  | start (audioInSampleRate : Json) (audioInChannels : Json)
  | other
  deriving DecidableEq, Repr

instance {ε α : Type} [DecidableEq ε] [DecidableEq α] : DecidableEq (Except ε α) := fun a b =>
  match a, b with
  | .ok x, .ok y =>
    if h : x = y then .isTrue (by rw [h]) else .isFalse (by intro hc; cases hc; exact h rfl)
  | .error x, .error y =>
    if h : x = y then .isTrue (by rw [h]) else .isFalse (by intro hc; cases hc; exact h rfl)
  | .ok _, .error _ => .isFalse (by intro hc; cases hc)
  | .error _, .ok _ => .isFalse (by intro hc; cases hc)

/-- A WebSocket payload handed to deserialize: either bytes, or a text
payload carried together with the outcome of json.loads on it (error
being a json.JSONDecodeError; the model abstracts the JSON parser by
this outcome). -/
inductive WirePayload where
  | binary (data : List Nat)
  | text (parsed : Except Unit Json)
  deriving DecidableEq, Repr

/-- RawPCMSerializer.deserialize (src/bot.py lines 93 to 117). Binary
data is wrapped in an InputAudioRawFrame tagged with the current state.
Text data is parsed; a json.JSONDecodeError is caught and yields no
frame; on a parsed dict whose type key equals the string start, the
state is updated from the keys audio_in_sample_rate and
audio_in_channels (defaulting to the current values) and a StartFrame is
returned; a dict with a different type yields no frame. A parsed
non-dict value hits obj.get and raises AttributeError, which the except
clause (json.JSONDecodeError only) does not catch: modelled as
Except.error. -/
def deserialize (st : SerializerState) (data : WirePayload) :
    Except String (SerializerState × Option PFrame) :=
  match data with
  | .binary bs => .ok (st, some (.inputAudio bs st.sampleRate st.channels))
  | .text (.error _) => .ok (st, none)
  | .text (.ok j) =>
    match j with
    | .obj fields =>
      if dictGet fields "type" = some (.str "start") then
        let sr := dictGetD fields "audio_in_sample_rate" st.sampleRate
        let ch := dictGetD fields "audio_in_channels" st.channels
        .ok ({ sampleRate := sr, channels := ch }, some (.start sr ch))
      else
        .ok (st, none)
    | _ => .error "AttributeError"

/-- RawPCMSerializer.serialize (src/bot.py lines 84 to 91): an
AudioRawFrame instance is forwarded as its raw audio bytes, anything
else maps to None. The debug log call does not affect the payload. -/
def serialize : PFrame → Option (List Nat)
  | .inputAudio a _ _ => some a
  | .outputAudio a _ _ => some a
  | .start _ _ => none
  | .other => none

/-- RawPCMSerializer.setup (src/bot.py lines 80 to 82): on pipeline
initialisation the sample rate becomes the audio_in_sample_rate of the
pipeline StartFrame when that value is truthy, else it is kept (the
Python x or y idiom). The channel count is not touched by setup. -/
def setup (st : SerializerState) (audioInSampleRate : Json) : SerializerState :=
  { st with
    sampleRate := if jsonTruthy audioInSampleRate then audioInSampleRate else st.sampleRate }

/-- A well-formed start-control text payload: parsed JSON object whose
type key holds the string start. Exactly these payloads reach the
state-updating branch of deserialize. -/
def isStartControl : WirePayload → Bool
  | .text (.ok (.obj fields)) => decide (dictGet fields "type" = some (.str "start"))
  | _ => false

/-- The start-control message of the wire protocol with integer audio
parameters, as a parsed text payload. -/
def startMsg (sr ch : Int) : WirePayload :=
  .text (.ok (.obj
    (.cons "type" (.str "start")
      (.cons "audio_in_sample_rate" (.num sr)
        (.cons "audio_in_channels" (.num ch) .nil)))))

/-- Threading the serializer state through a list of payloads, ignoring
the produced frames; an uncaught exception aborts the run. -/
def runState (st : SerializerState) : List WirePayload → Except String SerializerState
  | [] => .ok st
  | p :: ps =>
    match deserialize st p with
    | .ok (st1, _) => runState st1 ps
    | .error e => .error e

/-- An asyncio.Queue of outbound byte chunks: the pending items in FIFO
order (head is dequeued first) and the maxsize bound. The client code
constructs it with maxsize 100. -/
structure AQueue where
  items : List (List Nat)
  maxsize : Nat
  deriving DecidableEq, Repr

/-- asyncio.Queue.full: with a positive maxsize, true when the number of
pending items reaches maxsize. -/
def AQueue.isFull (q : AQueue) : Bool :=
  decide (0 < q.maxsize) && decide (q.maxsize ≤ q.items.length)

/-- asyncio.Queue.put_nowait: raises QueueFull (modelled as Except.error)
on a full queue, otherwise appends the item without suspending. -/
def AQueue.putNowait (q : AQueue) (item : List Nat) : Except Unit AQueue :=
  if q.isFull then .error () else .ok { q with items := q.items ++ [item] }

/-- The inner helper safe_put of mic_callback
(src/client/python/test_client.py lines 33 to 35): put_nowait guarded by
a fullness check, so a full queue drops the item silently and a
non-full queue always enqueues; the guarded put_nowait cannot raise.
safe_put runs on the event-loop thread via call_soon_threadsafe, so the
check and the put are not interleaved with other queue operations. -/
def safePut (q : AQueue) (item : List Nat) : AQueue :=
  if q.isFull then q
  else
    match q.putNowait item with
    | .ok q1 => q1
    | .error _ => q

/-- The messages printed by one invocation of mic_callback together with
the queue it leaves behind. -/
structure CallbackEffect where
  printed : List String
  queue : AQueue
  deriving DecidableEq, Repr

/-- mic_callback (src/client/python/test_client.py lines 29 to 37): when
the capture status reports an input overflow, the overflow message is
printed; the delivered chunk is copied and handed to safe_put. The
callback performs no suspending operation: its only queue interaction is
the non-blocking safe_put. -/
def micCallback (statusInputOverflow : Bool) (indata : List Nat) (q : AQueue) :
    CallbackEffect :=
  { printed := if statusInputOverflow then ["Audio buffer overflow!"] else []
    queue := safePut q indata }

/-- One scheduler event of the client session: a capture-callback
delivery, or one iteration of the sender task (queue.get of the head
chunk followed by websocket.send of it; on an empty queue the get
suspends, changing nothing). -/
inductive ClientEvent where
  | capture (statusInputOverflow : Bool) (chunk : List Nat)
  | senderStep
  deriving DecidableEq, Repr

/-- Observable state of the client session: the bounded queue, the
chunks transmitted so far in transmission order, and the chunks accepted
into the queue so far in acceptance order. -/
structure ClientState where
  queue : AQueue
  sent : List (List Nat)
  accepted : List (List Nat)
  deriving DecidableEq, Repr

/-- The client session starts with an empty queue of maxsize 100
(src/client/python/test_client.py line 11) and nothing sent. -/
def initClientState : ClientState :=
  { queue := { items := [], maxsize := 100 }, sent := [], accepted := [] }

/-- One step of the client session. A capture event runs mic_callback; a
chunk counts as accepted exactly when safe_put enqueued it (queue not
full). A sender step runs one iteration of the sender loop
(src/client/python/test_client.py lines 17 to 23): it dequeues the head
chunk and completes its transmission before the next iteration dequeues
anything; with an empty queue the get suspends and nothing changes. -/
def clientStep (s : ClientState) : ClientEvent → ClientState
  | .capture status chunk =>
    { s with
      queue := (micCallback status chunk s.queue).queue
      accepted := if s.queue.isFull then s.accepted else s.accepted ++ [chunk] }
  | .senderStep =>
    match s.queue.items with
    | [] => s
    | c :: rest =>
      { s with queue := { s.queue with items := rest }, sent := s.sent ++ [c] }

/-- Running the client session over a list of scheduler events. -/
def runClient (events : List ClientEvent) : ClientState :=
  events.foldl clientStep initClientState

/-- What the server receives from the client: its Python recv call
yields data, or raises one of the exceptions the loop distinguishes.
Binary data carries bytes; text data models a non-bytes payload. -/
inductive RecvEvent where
  | binaryData (b : List Nat)
  | textData (s : String)
  | closedOK
  | closedError
  | cancelled
  | interrupted
  deriving DecidableEq, Repr

/-- How the double try block around the receive loop
(src/client/python/test_client.py lines 46 to 57) is exited. -/
inductive LoopExit where
  | brokeClean
  | caughtCancelled
  | caughtInterrupt
  | uncaught (e : String)
  deriving DecidableEq, Repr

/-- Events the receive loop consumes without exiting: data deliveries. -/
def isDataEvent : RecvEvent → Bool
  | .binaryData _ => true
  | .textData _ => true
  | _ => false

/-- The receive loop (src/client/python/test_client.py lines 46 to 57),
run over the sequence of recv outcomes. A non-empty binary payload is
written to the speaker; other data is skipped. ConnectionClosedOK is
caught by the inner except and breaks the loop; CancelledError and
KeyboardInterrupt are caught by the outer except clauses; any other
exception (such as ConnectionClosedError) propagates uncaught. Returns
none while the loop is still awaiting the next recv. -/
def recvLoop : List RecvEvent → List (List Nat) → Option (List (List Nat) × LoopExit)
  | [], _ => none
  | e :: es, played =>
    match e with
    | .binaryData b =>
      recvLoop es (if b.length ≠ 0 then played ++ [b] else played)
    | .textData _ => recvLoop es played
    | .closedOK => some (played, .brokeClean)
    | .closedError => some (played, .uncaught "ConnectionClosedError")
    | .cancelled => some (played, .caughtCancelled)
    | .interrupted => some (played, .caughtInterrupt)

/-- What the tail of audio_stream does to the sender task. -/
structure Shutdown where
  senderCancelled : Bool
  senderAwaited : Bool
  cancellationSwallowed : Bool
  raises : Option String
  deriving DecidableEq, Repr

/-- The code after the receive loop
(src/client/python/test_client.py lines 59 to 61): when the loop body
completed normally (clean break, caught cancellation, or caught
interrupt), execution reaches sender_task.cancel() and the awaited join
wrapped in contextlib.suppress of CancelledError, and audio_stream
returns without raising; an uncaught exception skips those lines and
propagates out of the function. -/
def shutdownAfter : LoopExit → Shutdown
  | .brokeClean => ⟨true, true, true, none⟩
  | .caughtCancelled => ⟨true, true, true, none⟩
  | .caughtInterrupt => ⟨true, true, true, none⟩
  | .uncaught e => ⟨false, false, false, some e⟩

/-- The bytes of a WAV file produced through the Python wave module, by
the header fields set on it and the frames written: setnchannels,
setsampwidth, setframerate determine the header, writeframes supplies
the data chunk byte for byte. -/
structure WavFile where
  nchannels : Nat
  sampwidth : Nat
  framerate : Nat
  data : List Nat
  deriving DecidableEq, Repr

/-- save_audio (src/bot.py lines 42 to 57). With no audio bytes nothing
is written; otherwise a WAV file with sample width 2, the given channel
count and frame rate, and exactly the audio bytes as data is written to
a file named from the server name and the current timestamp. The
wall-clock timestamp, already formatted as YYYYMMDD_HHMMSS, is a
parameter of the model. Returns the created file name and contents, or
none when no file is created. -/
def save_audio (serverName : String) (audio : List Nat) (sampleRate : Nat)
    (numChannels : Nat) (timestamp : String) : Option (String × WavFile) :=
  if 0 < audio.length then
    some (serverName ++ "_recording_" ++ timestamp ++ ".wav",
      { nchannels := numChannels, sampwidth := 2, framerate := sampleRate, data := audio })
  else
    none

/-- Deserializing the start-control message always succeeds and moves
the serializer to exactly the advertised parameters, whatever the prior
state: both keys are present, so the defaults are never consulted. -/
lemma deserialize_startMsg (st : SerializerState) (sr ch : Int) :
    deserialize st (startMsg sr ch)
      = .ok (⟨.num sr, .num ch⟩, some (.start (.num sr) (.num ch))) := rfl

/-- Deserializing any payload that is not a well-formed start-control
message leaves the serializer state unchanged whenever it succeeds. -/
lemma deserialize_state_eq (st st1 : SerializerState) (p : WirePayload) (f : Option PFrame)
    (hp : isStartControl p = false)
    (h : deserialize st p = .ok (st1, f)) : st1 = st := by
  cases p with
  | binary bs =>
    simp only [deserialize, Except.ok.injEq, Prod.mk.injEq] at h
    exact h.1.symm
  | text r =>
    cases r with
    | error e =>
      simp only [deserialize, Except.ok.injEq, Prod.mk.injEq] at h
      exact h.1.symm
    | ok j =>
      cases j with
      | obj fields =>
        have hne : ¬ dictGet fields "type" = some (.str "start") := by
          simpa [isStartControl] using hp
        simp only [deserialize, if_neg hne, Except.ok.injEq, Prod.mk.injEq] at h
        exact h.1.symm
      | null => exact absurd h (by simp [deserialize])
      | bool b => exact absurd h (by simp [deserialize])
      | num n => exact absurd h (by simp [deserialize])
      | str s => exact absurd h (by simp [deserialize])
      | arr xs => exact absurd h (by simp [deserialize])

/-- Threading the state through any list of payloads containing no
start-control message returns it unchanged whenever no exception
escapes. -/
lemma runState_no_start (ps : List WirePayload) :
    ∀ st st1 : SerializerState, (∀ p ∈ ps, isStartControl p = false) →
      runState st ps = .ok st1 → st1 = st := by
  induction ps with
  | nil =>
    intro st st1 _ h
    simp only [runState, Except.ok.injEq] at h
    exact h.symm
  | cons p ps ih =>
    intro st st1 hall h
    unfold runState at h
    cases hd : deserialize st p with
    | error e => rw [hd] at h; cases h
    | ok pr =>
      obtain ⟨stm, f⟩ := pr
      rw [hd] at h
      have hmid : stm = st :=
        deserialize_state_eq st stm p f (hall p (List.mem_cons_self p ps)) hd
      have := ih stm st1 (fun q hq => hall q (List.mem_cons_of_mem p hq)) h
      rw [this, hmid]

/-- C2: deserializing a text payload whose JSON parse fails returns no
frame, raises nothing (json.JSONDecodeError is caught and swallowed),
and leaves the negotiated sample rate and channel count exactly as they
were. -/
theorem c2_malformed_json_ignored (st : SerializerState) (e : Unit) :
    deserialize st (.text (.error e)) = .ok (st, none) := rfl

/-- C8: serialize maps every audio frame, in particular every outbound
audio frame, to exactly its raw audio byte string: no framing, length
prefix, or header is added. -/
theorem c8_serialize_raw_passthrough (a : List Nat) (sr ch : Json) :
    serialize (.outputAudio a sr ch) = some a ∧
    serialize (.inputAudio a sr ch) = some a :=
  ⟨rfl, rfl⟩

/-- C9: the tolerance of deserialize for bad text is not total: a text
payload that parses to valid JSON which is not an object, such as the
number 5 or the array [1, 2], raises an uncaught AttributeError from
obj.get, instead of returning no frame; only JSON decode errors are
caught. -/
theorem c9_non_object_json_raises (st : SerializerState) :
    deserialize st (.text (.ok (.num 5))) = .error "AttributeError" ∧
    deserialize st (.text (.ok (.arr (.cons (.num 1) (.cons (.num 2) .nil)))))
      = .error "AttributeError" :=
  ⟨rfl, rfl⟩

/-- C10: a text payload parsing to a JSON object whose type key is not
the string start (or that has no type key) yields no frame and leaves
the negotiated parameters unchanged. -/
theorem c10_non_start_object_ignored (st : SerializerState) (fields : JsonFields)
    (h : dictGet fields "type" ≠ some (.str "start")) :
    deserialize st (.text (.ok (.obj fields))) = .ok (st, none) := by
  simp only [deserialize, if_neg h]

/-- Witness for C10 at a concrete object with type stop. -/
theorem c10_witness :
    dictGet (.cons "type" (.str "stop") .nil) "type" ≠ some (.str "start") ∧
    deserialize initState (.text (.ok (.obj (.cons "type" (.str "stop") .nil))))
      = .ok (initState, none) :=
  ⟨by decide,
   c10_non_start_object_ignored initState (.cons "type" (.str "stop") .nil) (by decide)⟩

/-- C5: save_audio creates no file for empty audio; for non-empty audio
it writes a file named serverName_recording_timestamp.wav whose header
declares the given channel count (here 1), sample width 2 bytes and
frame rate R, and whose data is exactly the N audio bytes. -/
theorem c5_save_audio (serverName timestamp : String) (audio : List Nat) (R : Nat) :
    (audio.length = 0 → save_audio serverName audio R 1 timestamp = none) ∧
    (0 < audio.length → ∃ wav : WavFile,
      save_audio serverName audio R 1 timestamp
        = some (serverName ++ "_recording_" ++ timestamp ++ ".wav", wav) ∧
      wav.nchannels = 1 ∧ wav.sampwidth = 2 ∧ wav.framerate = R ∧
      wav.data.length = audio.length) := by
  constructor
  · intro h
    simp [save_audio, h]
  · intro h
    exact ⟨{ nchannels := 1, sampwidth := 2, framerate := R, data := audio },
      by simp [save_audio, h], rfl, rfl, rfl, rfl⟩

/-- Witness for C5 at empty audio and at a two-byte recording. -/
theorem c5_witness :
    save_audio "server_8765" [] 8000 1 "20250101_120000" = none ∧
    (∃ wav : WavFile,
      save_audio "server_8765" [1, 2] 8000 1 "20250101_120000"
        = some ("server_8765" ++ "_recording_" ++ "20250101_120000" ++ ".wav", wav) ∧
      wav.nchannels = 1 ∧ wav.sampwidth = 2 ∧ wav.framerate = 8000 ∧
      wav.data.length = [1, 2].length) :=
  ⟨(c5_save_audio "server_8765" "20250101_120000" [] 8000).1 rfl,
   (c5_save_audio "server_8765" "20250101_120000" [1, 2] 8000).2 (by decide)⟩

/-- C1: after deserializing the start-control message with sample rate
8000 and 1 channel, every binary payload deserialized later in the
session is wrapped as an InputAudioRawFrame tagged 8000 Hz and 1
channel, whatever the prior default was; the interleaved payloads may be
anything except a further start-control message, which the data model of
the protocol sends once at session start. -/
theorem c1_start_control_applies (st0 : SerializerState) (ps : List WirePayload)
    (hps : ∀ p ∈ ps, isStartControl p = false)
    (st1 : SerializerState) (f1 : Option PFrame)
    (h1 : deserialize st0 (startMsg 8000 1) = .ok (st1, f1))
    (st2 : SerializerState)
    (h2 : runState st1 ps = .ok st2)
    (bs : List Nat) :
    deserialize st2 (.binary bs)
      = .ok (st2, some (.inputAudio bs (.num 8000) (.num 1))) := by
  rw [deserialize_startMsg] at h1
  have hst1 : st1 = ⟨.num 8000, .num 1⟩ := by
    simp only [Except.ok.injEq, Prod.mk.injEq] at h1
    exact h1.1.symm
  have hst2 : st2 = st1 := runState_no_start ps st1 st2 hps h2
  rw [hst2, hst1]
  rfl

/-- Witness for C1: prior state 44100 Hz 2 channels, then the 8000/1
start message, then a binary chunk, a malformed text and a non-start
object, then the probed binary payload. -/
theorem c1_witness :
    (∀ p ∈ ([.binary [0], .text (.error ()),
              .text (.ok (.obj (.cons "type" (.str "stop") .nil)))] : List WirePayload),
        isStartControl p = false) ∧
    deserialize ⟨.num 44100, .num 2⟩ (startMsg 8000 1)
      = .ok (⟨.num 8000, .num 1⟩, some (.start (.num 8000) (.num 1))) ∧
    runState ⟨.num 8000, .num 1⟩
        [.binary [0], .text (.error ()),
         .text (.ok (.obj (.cons "type" (.str "stop") .nil)))]
      = .ok ⟨.num 8000, .num 1⟩ ∧
    deserialize ⟨.num 8000, .num 1⟩ (.binary [1, 2, 3, 4])
      = .ok (⟨.num 8000, .num 1⟩, some (.inputAudio [1, 2, 3, 4] (.num 8000) (.num 1))) :=
  ⟨by decide, by decide, by decide,
   c1_start_control_applies ⟨.num 44100, .num 2⟩
     [.binary [0], .text (.error ()),
      .text (.ok (.obj (.cons "type" (.str "stop") .nil)))]
     (by decide) ⟨.num 8000, .num 1⟩ (some (.start (.num 8000) (.num 1)))
     (by decide) ⟨.num 8000, .num 1⟩ (by decide) [1, 2, 3, 4]⟩

/-- C3 counterexample: with the queue full (100 pending chunks of its
maxsize 100) and a capture status reporting no device input overflow,
mic_callback drops the chunk (the queue is unchanged) but prints
nothing: no overflow indication is logged, contradicting the claim that
a full queue always logs one. -/
theorem c3_counterexample :
    (AQueue.mk (List.replicate 100 [0]) 100).isFull = true ∧
    micCallback false [1] (AQueue.mk (List.replicate 100 [0]) 100)
      = { printed := [], queue := AQueue.mk (List.replicate 100 [0]) 100 } := by
  constructor
  · decide
  · rfl

/-- C3 amended: a chunk delivered while the queue is full is dropped
without blocking and without any log; a chunk delivered while the queue
is not full is enqueued without blocking; the overflow message is
printed exactly when the capture status reports a device input
overflow, independently of queue fullness. -/
theorem c3_amended_capture_drop (status : Bool) (chunk : List Nat) (q : AQueue) :
    micCallback status chunk q
      = { printed := if status then ["Audio buffer overflow!"] else []
          queue := if q.isFull then q else { q with items := q.items ++ [chunk] } } := by
  by_cases h : q.isFull = true
  · simp [micCallback, safePut, AQueue.putNowait, h]
  · simp only [Bool.not_eq_true] at h
    simp [micCallback, safePut, AQueue.putNowait, h]

/-- C4 counterexample: after the 8000 Hz 1 channel start-control message
is applied, a further start-control message advertising 16000 Hz and 2
channels changes the negotiated parameters, and so does setup when the
pipeline StartFrame carries 16000 Hz; the parameters are not fixed for
the remainder of the session. -/
theorem c4_counterexample :
    deserialize initState (startMsg 8000 1)
      = .ok (⟨.num 8000, .num 1⟩, some (.start (.num 8000) (.num 1))) ∧
    deserialize ⟨.num 8000, .num 1⟩ (startMsg 16000 2)
      = .ok (⟨.num 16000, .num 2⟩, some (.start (.num 16000) (.num 2))) ∧
    (⟨.num 16000, .num 2⟩ : SerializerState) ≠ ⟨.num 8000, .num 1⟩ ∧
    setup ⟨.num 8000, .num 1⟩ (.num 16000) = ⟨.num 16000, .num 1⟩ := by
  refine ⟨rfl, rfl, by decide, by decide⟩

/-- C4 amended: once applied, the negotiated sample rate and channel
count are changed only by a further well-formed start-control message or
by pipeline initialisation through setup; deserializing any payload that
is not a start-control message leaves them both unchanged whenever it
returns at all. -/
theorem c4_amended_params_stable (st st1 : SerializerState) (p : WirePayload)
    (f : Option PFrame)
    (hp : isStartControl p = false)
    (h : deserialize st p = .ok (st1, f)) : st1 = st :=
  deserialize_state_eq st st1 p f hp h

/-- Witness for C4 amended at a binary payload. -/
theorem c4_amended_witness :
    isStartControl (.binary [7]) = false ∧ initState = initState :=
  ⟨by decide,
   c4_amended_params_stable initState initState (.binary [7])
     (some (.inputAudio [7] (.num 16000) (.num 1))) (by decide) (by decide)⟩

/-- One client step preserves the accounting identity: the transmitted
chunks followed by the pending queue are exactly the accepted chunks in
acceptance order. -/
lemma clientStep_invariant (s : ClientState) (e : ClientEvent)
    (h : s.sent ++ s.queue.items = s.accepted) :
    (clientStep s e).sent ++ (clientStep s e).queue.items = (clientStep s e).accepted := by
  cases e with
  | capture status chunk =>
    by_cases hf : s.queue.isFull = true
    · simp [clientStep, micCallback, safePut, hf, h]
    · simp only [Bool.not_eq_true] at hf
      simp [clientStep, micCallback, safePut, AQueue.putNowait, hf, ← h,
        List.append_assoc]
  | senderStep =>
    cases hq : s.queue.items with
    | nil =>
      rw [hq] at h
      simp only [clientStep, hq]
      simpa using h
    | cons c rest =>
      simp only [clientStep, hq]
      rw [← h, hq]
      simp

/-- C6: running the client session over any interleaving of capture
deliveries and sender iterations, the chunks transmitted so far followed
by the chunks still pending in the queue are exactly the chunks accepted
into the queue, in acceptance order. Hence transmission is FIFO in
acceptance order, every accepted chunk is transmitted at most once and
is either already transmitted or still pending, and the pending suffix
is what a shutdown cancellation would discard. -/
theorem c6_fifo_exactly_once (events : List ClientEvent) :
    (runClient events).sent ++ (runClient events).queue.items
      = (runClient events).accepted := by
  have main : ∀ (evs : List ClientEvent) (s : ClientState),
      s.sent ++ s.queue.items = s.accepted →
      (evs.foldl clientStep s).sent ++ (evs.foldl clientStep s).queue.items
        = (evs.foldl clientStep s).accepted := by
    intro evs
    induction evs with
    | nil => intro s h; simpa using h
    | cons e evs ih =>
      intro s h
      simp only [List.foldl_cons]
      exact ih (clientStep s e) (clientStep_invariant s e h)
  simpa [runClient] using main events initClientState rfl

/-- Any run of data deliveries followed by a clean close breaks the
receive loop cleanly, whatever comes after on the wire. -/
lemma recvLoop_clean_close : ∀ (pre : List RecvEvent) (played : List (List Nat))
    (rest : List RecvEvent), (∀ e ∈ pre, isDataEvent e = true) →
    ∃ pl, recvLoop (pre ++ .closedOK :: rest) played = some (pl, .brokeClean) := by
  intro pre
  induction pre with
  | nil => intro played rest _; exact ⟨played, rfl⟩
  | cons e pre ih =>
    intro played rest hall
    cases e with
    | binaryData b =>
      simpa only [List.cons_append, recvLoop] using
        ih _ rest (fun q hq => hall q (List.mem_cons_of_mem _ hq))
    | textData s =>
      simpa only [List.cons_append, recvLoop] using
        ih played rest (fun q hq => hall q (List.mem_cons_of_mem _ hq))
    | closedOK => exact absurd (hall _ (List.mem_cons_self _ _)) (by decide)
    | closedError => exact absurd (hall _ (List.mem_cons_self _ _)) (by decide)
    | cancelled => exact absurd (hall _ (List.mem_cons_self _ _)) (by decide)
    | interrupted => exact absurd (hall _ (List.mem_cons_self _ _)) (by decide)

/-- C7: a clean remote closure after any sequence of data deliveries
makes the receive loop exit by its clean break, without raising; and on
each of the three loop exit paths (normal break, caught cancellation,
caught keyboard interrupt) the code after the loop cancels the sender
task, awaits it, and swallows its cancellation instead of re-raising,
before audio_stream returns. -/
theorem c7_clean_close_shutdown (pre : List RecvEvent)
    (hpre : ∀ e ∈ pre, isDataEvent e = true) (rest : List RecvEvent) :
    (∃ played, recvLoop (pre ++ .closedOK :: rest) [] = some (played, .brokeClean)) ∧
    (∀ ex : LoopExit,
      ex = .brokeClean ∨ ex = .caughtCancelled ∨ ex = .caughtInterrupt →
      (shutdownAfter ex).senderCancelled = true ∧
      (shutdownAfter ex).senderAwaited = true ∧
      (shutdownAfter ex).cancellationSwallowed = true ∧
      (shutdownAfter ex).raises = none) := by
  constructor
  · exact recvLoop_clean_close pre [] rest hpre
  · intro ex hex
    rcases hex with h | h | h <;> subst h <;> exact ⟨rfl, rfl, rfl, rfl⟩

/-- Witness for C7: two data deliveries, then the clean close, then a
further delivery that the loop never reads. -/
theorem c7_witness :
    (∀ e ∈ ([.binaryData [1, 2], .textData "x"] : List RecvEvent),
        isDataEvent e = true) ∧
    ((∃ played, recvLoop ([.binaryData [1, 2], .textData "x"]
          ++ .closedOK :: [.binaryData [9]]) [] = some (played, .brokeClean)) ∧
     (∀ ex : LoopExit,
        ex = .brokeClean ∨ ex = .caughtCancelled ∨ ex = .caughtInterrupt →
        (shutdownAfter ex).senderCancelled = true ∧
        (shutdownAfter ex).senderAwaited = true ∧
        (shutdownAfter ex).cancellationSwallowed = true ∧
        (shutdownAfter ex).raises = none)) :=
  ⟨by decide,
   c7_clean_close_shutdown [.binaryData [1, 2], .textData "x"] (by decide)
     [.binaryData [9]]⟩

end PipeCheetah
